import Mathlib

/-!
Verification of the OpenStarscape server core: a shallow embedding of
`src/entity/property.rs`, `src/server/http/http_server.rs` and
`src/server/webrtc/webrtc_session.rs`, with theorems settling the stated
properties of the Property contract, the HTTP-to-HTTPS redirect listener,
the listener shutdown sequence, and the WebRTC session stubs.
-/

/-! ## HTTP reply model

`redirect_request_to_https` in `http_server.rs` produces one of: a 404
NOT_FOUND response, a 500 INTERNAL_SERVER_ERROR response, or a
`warp::redirect(uri)` reply, which is a 301 MOVED_PERMANENTLY response whose
location header is the target URI.  `https_redirect_fallback_response`
produces a 500 response with a text body. -/

structure HttpReply where
  status : Nat
  location : Option String
  body : Option String
deriving DecidableEq

/-- Valid bytes in the path section of a path-and-query, as accepted by the
`http` crate's `PathAndQuery::from_maybe_shared` (the crate backing
`warp::http::uri::PathAndQuery`): `0x21`, `0x24..=0x3B`, `0x3D`,
`0x40..=0x5F`, `0x61..=0x7A`, `0x7C`, `0x7E`.  Any other byte is an invalid
URI character; `?` switches to the query section and `#` starts a fragment. -/
def pathCharOk (c : Char) : Bool :=
  let b := c.toNat
  b == 0x21 || (0x24 ≤ b && b ≤ 0x3B) || b == 0x3D ||
    (0x40 ≤ b && b ≤ 0x5F) || (0x61 ≤ b && b ≤ 0x7A) || b == 0x7C || b == 0x7E

/-- Valid bytes in the query section of a path-and-query, per the same
parser: `0x21`, `0x24..=0x3B`, `0x3D`, `0x3F..=0x7E`; `#` starts a
fragment. -/
def queryCharOk (c : Char) : Bool :=
  let b := c.toNat
  b == 0x21 || (0x24 ≤ b && b ≤ 0x3B) || b == 0x3D || (0x3F ≤ b && b ≤ 0x7E)

/-- The scanning loop of `PathAndQuery::from_maybe_shared`: walk the bytes in
path mode, switch to query mode at the first `?`, truncate the data at a `#`
(the fragment is discarded), and fail on the first invalid URI character.
Returns the retained data on success. -/
def pqScan : Bool → List Char → Option (List Char)
  | _, [] => some []
  | inQuery, c :: rest =>
    if c == '#' then some []
    else if !inQuery && c == '?' then (pqScan true rest).map (fun l => '?' :: l)
    else if (if inQuery then queryCharOk c else pathCharOk c) then
      (pqScan inQuery rest).map (fun l => c :: l)
    else none

/-- `warp::http::uri::PathAndQuery::from_maybe_shared`, modelled on strings:
validates the bytes and drops any fragment; `none` is the `Err` case. -/
def PathAndQuery.from_maybe_shared (s : String) : Option String :=
  (pqScan false s.toList).map (fun l => String.mk l)

/-- The path-and-query string built by `redirect_request_to_https`:
`path` alone when the query is empty, otherwise `path?query`. -/
def path_and_query_str (path query : String) : String :=
  if query.isEmpty then path else path ++ "?" ++ query

/-- `warp::hyper::Uri::builder().scheme("https").authority(a).path_and_query(p).build()`:
per the `http` crate's `Uri::from_parts`, with scheme, authority and
path-and-query all present (and the authority/path-and-query already parsed
values), the build succeeds and yields the assembled URI. -/
def uri_build (authority pq : String) : Option String :=
  some ("https://" ++ authority ++ pq)

/-- `redirect_request_to_https` from `http_server.rs`: no authority means
404 NOT_FOUND; a failed path-and-query build means 404 NOT_FOUND; a failed
URI build means 500 INTERNAL_SERVER_ERROR; otherwise a redirect (301 with
the URI as location). -/
def redirect_request_to_https (authority : Option String) (path query : String) :
    HttpReply :=
  match authority with
  | none => ⟨404, none, none⟩
  | some auth =>
    match PathAndQuery.from_maybe_shared (path_and_query_str path query) with
    | none => ⟨404, none, none⟩
    | some pq =>
      match uri_build auth pq with
      | none => ⟨500, none, none⟩
      | some uri => ⟨301, some uri, none⟩

/-- `https_redirect_fallback_response` from `http_server.rs`: a 500 response
whose body appends the rejection's debug text (here the rejection is
represented by that text). -/
def https_redirect_fallback_response (rejection : String) : HttpReply :=
  ⟨500, none,
    some ("Please use HTTPS instead of HTTP, automatic redirection failed: " ++ rejection)⟩

/-! ## HttpServer shutdown sequence

`impl Drop for HttpServer` in `http_server.rs`.  The state holds the two
`Option` fields; `shutdown_tx`'s payload records whether the oneshot
receiver is still alive (send succeeds) or already dropped (send fails),
and `join_handle`'s payload records the outcome the bounded join will
observe.  `Option.take().unwrap()` on an empty option is a panic, modelled
as the `Except.error` case. -/

inductive JoinOutcome where
  | timedOut
  | joinError (msg : String)
  | finished
deriving DecidableEq

inductive LogLevel where
  | error
  | warn
  | trace
deriving DecidableEq

structure LogEntry where
  level : LogLevel
  msg : String
deriving DecidableEq

structure HttpServerState where
  name : String
  socket_addr : String
  shutdown_tx : Option Bool
  join_handle : Option JoinOutcome
deriving DecidableEq

/-- The `match` at the end of `Drop::drop`: a timeout logs a warning, a join
error logs an error, and a clean finish logs a trace message. -/
def joinLogEntry (name : String) : JoinOutcome → LogEntry
  | .timedOut => ⟨.warn, "shutting down " ++ name ++ " server timed out"⟩
  | .joinError e => ⟨.error, "failed to join " ++ name ++ " server task: " ++ e⟩
  | .finished => ⟨.trace, name ++ " server shut down"⟩

/-- `Drop::drop` for `HttpServer`: take and unwrap `shutdown_tx` (panicking
if it is already `None`), send the shutdown signal and log an error if the
send fails, then take and unwrap `join_handle` (panicking if `None`) and log
the outcome of the 200ms-bounded join.  `Except.error` is a panic; on
success the state has both options taken and the emitted log entries are
returned. -/
def HttpServer.drop (s : HttpServerState) :
    Except String (HttpServerState × List LogEntry) :=
  match s.shutdown_tx with
  | none => .error "called Option::unwrap() on a None value"
  | some receiverAlive =>
    let sendLogs : List LogEntry :=
      if receiverAlive then []
      else [⟨.error, "failed to send " ++ s.name ++ " server shutdown request"⟩]
    match s.join_handle with
    | none => .error "called Option::unwrap() on a None value"
    | some outcome =>
      .ok (⟨s.name, s.socket_addr, none, none⟩, sendLogs ++ [joinLogEntry s.name outcome])

/-! ## HttpServer::new_encrypted

`new_encrypted` uses warp's `bind_with_graceful_shutdown` (not the `try_`
variant, which warp's `TlsServer` lacks, per the TODO comment in the
source).  That call binds eagerly — it returns the bound `SocketAddr` along
with the server future — and on a bad address or a bad certificate/key it
panics inside the constructor call itself, so `new_encrypted` never returns
on those inputs: neither a typed `Err` nor an `Ok` server, and `tokio::spawn`
is never reached.  The bind outcome is a parameter here, since socket and
file I/O are external. -/

/-- What a call to the constructor does: panic (unwind out of the call), or
return its declared `Result` — `returned (.error _)` would be the typed
failure return. -/
inductive ConstructorOutcome where
  | panicked (msg : String)
  | returned (result : Except String HttpServerState)

/-- `HttpServer::new_encrypted`: builds the oneshot channel (receiver
alive), then calls the eager `bind_with_graceful_shutdown`, which panics on
a bind/TLS failure before the server task is spawned; only when the bind
succeeds does it spawn the task and return `Ok` with the new `HttpServer`.
No code path produces a typed `Err`.  `eventualJoin` is the
environment-determined outcome the later bounded join will observe. -/
def HttpServer.new_encrypted (socket_addr _cert_path _key_path : String)
    (bindResult : Except String Unit) (eventualJoin : JoinOutcome) :
    ConstructorOutcome :=
  match bindResult with
  | .error e => .panicked e
  | .ok _ =>
    .returned (.ok ⟨"Encrypted HTTPS", socket_addr, some true, some eventualJoin⟩)

/-! ## WebRTC session stubs

`webrtc_session.rs`: `WebrtcSessionBuilder::build` and
`WebrtcSession::send_packet` are unimplemented stubs returning errors;
`WebrtcSession::max_packet_len` returns the external crate constant
`webrtc_unreliable::MAX_MESSAGE_LEN`. -/

/-- `webrtc_unreliable::MAX_MESSAGE_LEN`, a constant of the external
webrtc-unreliable crate; its exact numeric value is external to this
repository and irrelevant to the claims, which only use that it is one fixed
constant. -/
def MAX_MESSAGE_LEN : Nat := 65536

structure WebrtcSessionBuilder
deriving DecidableEq

structure WebrtcSession
deriving DecidableEq

/-- `WebrtcSessionBuilder::new`. -/
def WebrtcSessionBuilder.new : WebrtcSessionBuilder := ⟨⟩

/-- `WebrtcSessionBuilder::build`: ignores the receive handler (of any type)
and fails with the not-implemented error. -/
def WebrtcSessionBuilder.build {α : Type} (_self : WebrtcSessionBuilder)
    (_handle_incoming_data : α) : Except String WebrtcSession :=
  .error "WebrtcSessionBuilder::build() not implemented"

/-- `WebrtcSession::send_packet`: ignores the payload and fails with the
not-implemented error. -/
def WebrtcSession.send_packet (_self : WebrtcSession) (_data : List Nat) :
    Except String Unit :=
  .error "WebrtcSession::send() not implemented"

/-- `WebrtcSession::max_packet_len`: returns
`webrtc_unreliable::MAX_MESSAGE_LEN` (after logging a warning). -/
def WebrtcSession.max_packet_len (_self : WebrtcSession) : Nat :=
  MAX_MESSAGE_LEN

/-! ## Property model

`src/entity/property.rs` contains only the `Property` trait declaration; the
implementing type is not part of the shown sources, so the operational model
below is built from the specification's §4.1 contract. -/

namespace OSp

/-- Modelled from the spec: the Encodable value model of §3 — a closed,
serializable value variant set (integer, boolean, text, and composite forms
built from these).  The floating-point kind is omitted from the shallow
embedding; no claim touches it.  The implementing enum is not among the
shown sources. -/
inductive Encodable where
  | int (n : Int)
  | boolean (b : Bool)
  | text (s : String)
  | list (xs : List Encodable)

/-- An opaque, comparable identity for one live network connection. -/
abbrev ConnectionKey := Nat

inductive PropError where
  | invalidValue
  | propertyGone
deriving DecidableEq

/-- Modelled from the spec: a Property's mutable state per §3 — current
value, set of subscribed ConnectionKeys, and whether `finalize` has run.
The implementing struct behind the `Property` trait is not among the shown
sources. -/
structure PropertyState where
  value : Encodable
  subscribers : List ConnectionKey
  finalized : Bool

/-- Modelled from the spec: `get_value` returns the current value and never
fails for a live Property; after `finalize` it fails with `PropertyGone`. -/
def Property.get_value (p : PropertyState) : Except PropError Encodable :=
  if p.finalized then .error .propertyGone else .ok p.value

/-- Modelled from the spec: `set_value` validates the value against the
property's expected kind/range (the check is the `valid` parameter, since
the per-property domain is not among the shown sources); after `finalize` it
fails with `PropertyGone`; on a validation mismatch it fails with
`InvalidValue` and leaves the state unchanged; on success it mutates the
value and produces one change notification per currently-subscribed key. -/
def Property.set_value (valid : Encodable → Bool) (p : PropertyState)
    (v : Encodable) :
    PropertyState × Except PropError (List (ConnectionKey × Encodable)) :=
  if p.finalized then (p, .error .propertyGone)
  else if valid v then
    ({ p with value := v }, .ok (p.subscribers.map (fun c => (c, v))))
  else (p, .error .invalidValue)

/-- Modelled from the spec: `subscribe` is idempotent and fails only on a
finalized Property, with `PropertyGone`. -/
def Property.subscribe (p : PropertyState) (c : ConnectionKey) :
    PropertyState × Except PropError Unit :=
  if p.finalized then (p, .error .propertyGone)
  else if p.subscribers.contains c then (p, .ok ())
  else ({ p with subscribers := c :: p.subscribers }, .ok ())

/-- Modelled from the spec: `unsubscribe` is idempotent; removing an absent
key succeeds as a no-op (the spec lists only get/set/subscribe as failing
after finalization, so unsubscribe stays a no-op there). -/
def Property.unsubscribe (p : PropertyState) (c : ConnectionKey) :
    PropertyState × Except PropError Unit :=
  ({ p with subscribers := p.subscribers.filter (fun k => k != c) }, .ok ())

/-- Modelled from the spec: `finalize` is irreversible — it clears the
subscriber set and marks the Property gone. -/
def Property.finalize (p : PropertyState) : PropertyState :=
  { p with finalized := true, subscribers := [] }

/-- One call of the Property contract, for closure under later states. -/
inductive PropOp where
  | set (v : Encodable)
  | sub (c : ConnectionKey)
  | unsub (c : ConnectionKey)
  | fin

def applyOp (valid : Encodable → Bool) (p : PropertyState) : PropOp → PropertyState
  | .set v => (Property.set_value valid p v).1
  | .sub c => (Property.subscribe p c).1
  | .unsub c => (Property.unsubscribe p c).1
  | .fin => Property.finalize p

def applyOps (valid : Encodable → Bool) (ops : List PropOp) (p : PropertyState) :
    PropertyState :=
  ops.foldl (applyOp valid) p

end OSp

/-! ## Helper lemmas -/

lemma pathCharOk_ne_hash {c : Char} (h : pathCharOk c = true) : (c == '#') = false := by
  cases hb : c == '#'
  · rfl
  · have hc := eq_of_beq hb
    subst hc
    exact absurd h (by decide)

lemma pathCharOk_ne_qmark {c : Char} (h : pathCharOk c = true) : (c == '?') = false := by
  cases hb : c == '?'
  · rfl
  · have hc := eq_of_beq hb
    subst hc
    exact absurd h (by decide)

lemma queryCharOk_ne_hash {c : Char} (h : queryCharOk c = true) : (c == '#') = false := by
  cases hb : c == '#'
  · rfl
  · have hc := eq_of_beq hb
    subst hc
    exact absurd h (by decide)

/-- A list of valid query bytes scans unchanged in query mode. -/
lemma pqScan_query_all {l : List Char} (h : l.all queryCharOk = true) :
    pqScan true l = some l := by
  induction l with
  | nil => rfl
  | cons c rest ih =>
    rw [List.all_cons, Bool.and_eq_true] at h
    obtain ⟨hc, hr⟩ := h
    simp [pqScan, queryCharOk_ne_hash hc, hc, ih hr]

/-- A list of valid path bytes scans unchanged in path mode. -/
lemma pqScan_path_all {l : List Char} (h : l.all pathCharOk = true) :
    pqScan false l = some l := by
  induction l with
  | nil => rfl
  | cons c rest ih =>
    rw [List.all_cons, Bool.and_eq_true] at h
    obtain ⟨hc, hr⟩ := h
    simp [pqScan, pathCharOk_ne_hash hc, pathCharOk_ne_qmark hc, hc, ih hr]

/-- A valid path, `?`, and a valid query scan unchanged from path mode. -/
lemma pqScan_path_query (p q : List Char) (hp : p.all pathCharOk = true)
    (hq : q.all queryCharOk = true) :
    pqScan false (p ++ '?' :: q) = some (p ++ '?' :: q) := by
  induction p with
  | nil => simp [pqScan, pqScan_query_all hq]
  | cons c rest ih =>
    rw [List.all_cons, Bool.and_eq_true] at hp
    obtain ⟨hc, hr⟩ := hp
    simp [pqScan, pathCharOk_ne_hash hc, pathCharOk_ne_qmark hc, hc, ih hr]

/-- When the scan keeps the bytes intact, `from_maybe_shared` is the
identity. -/
lemma from_maybe_shared_eq_self (s : String)
    (h : pqScan false s.toList = some s.toList) :
    PathAndQuery.from_maybe_shared s = some s := by
  unfold PathAndQuery.from_maybe_shared
  rw [h]
  rfl

lemma applyOp_finalized (valid : OSp.Encodable → Bool) (p : OSp.PropertyState)
    (op : OSp.PropOp) (h : p.finalized = true) :
    (OSp.applyOp valid p op).finalized = true := by
  cases op <;>
    simp [OSp.applyOp, OSp.Property.set_value, OSp.Property.subscribe,
      OSp.Property.unsubscribe, OSp.Property.finalize, h]

/-- Once `finalized`, the flag survives any sequence of contract calls. -/
lemma applyOps_finalized (valid : OSp.Encodable → Bool) (ops : List OSp.PropOp) :
    ∀ p : OSp.PropertyState, p.finalized = true →
      (OSp.applyOps valid ops p).finalized = true := by
  induction ops with
  | nil => intro p h; exact h
  | cons op rest ih =>
    intro p h
    simp only [OSp.applyOps, List.foldl_cons]
    exact ih _ (applyOp_finalized valid p op h)

/-! ## Claim theorems -/

/-- C1: for every live Property and every value failing its kind/range
validation, `set_value` returns the `InvalidValue` error and leaves the
state unchanged, so a subsequent `get_value` returns the same value it
returned before the failed call (no partial mutation). -/
theorem c1_set_value_invalid_no_mutation (valid : OSp.Encodable → Bool)
    (p : OSp.PropertyState) (v : OSp.Encodable)
    (hlive : p.finalized = false) (hv : valid v = false) :
    (OSp.Property.set_value valid p v).1 = p ∧
    (OSp.Property.set_value valid p v).2 = .error .invalidValue ∧
    OSp.Property.get_value (OSp.Property.set_value valid p v).1 =
      OSp.Property.get_value p := by
  simp [OSp.Property.set_value, hlive, hv]

/-- Witness for C1 at a concrete live integer property and a text value
rejected by the integer validator. -/
theorem c1_set_value_invalid_no_mutation_witness :
    ((OSp.PropertyState.mk (OSp.Encodable.int 3) [] false).finalized = false ∧
     (fun e => match e with | OSp.Encodable.int _ => true | _ => false)
        (OSp.Encodable.text "x") = false) ∧
    ((OSp.Property.set_value
        (fun e => match e with | OSp.Encodable.int _ => true | _ => false)
        (OSp.PropertyState.mk (OSp.Encodable.int 3) [] false)
        (OSp.Encodable.text "x")).1 =
      OSp.PropertyState.mk (OSp.Encodable.int 3) [] false ∧
     (OSp.Property.set_value
        (fun e => match e with | OSp.Encodable.int _ => true | _ => false)
        (OSp.PropertyState.mk (OSp.Encodable.int 3) [] false)
        (OSp.Encodable.text "x")).2 = .error .invalidValue ∧
     OSp.Property.get_value (OSp.Property.set_value
        (fun e => match e with | OSp.Encodable.int _ => true | _ => false)
        (OSp.PropertyState.mk (OSp.Encodable.int 3) [] false)
        (OSp.Encodable.text "x")).1 =
      OSp.Property.get_value (OSp.PropertyState.mk (OSp.Encodable.int 3) [] false)) :=
  ⟨⟨rfl, rfl⟩,
    c1_set_value_invalid_no_mutation
      (fun e => match e with | OSp.Encodable.int _ => true | _ => false)
      (OSp.PropertyState.mk (OSp.Encodable.int 3) [] false)
      (OSp.Encodable.text "x") rfl rfl⟩

/-- C2: once `finalize` has run, any later sequence of contract calls leaves
the Property finalized, and `get_value`, `set_value` and `subscribe` all
fail with `PropertyGone` in every such later state. -/
theorem c2_finalize_irreversible (valid : OSp.Encodable → Bool)
    (p : OSp.PropertyState) (ops : List OSp.PropOp) (v : OSp.Encodable)
    (c : OSp.ConnectionKey) :
    (OSp.applyOps valid ops (OSp.Property.finalize p)).finalized = true ∧
    OSp.Property.get_value (OSp.applyOps valid ops (OSp.Property.finalize p)) =
      .error .propertyGone ∧
    (OSp.Property.set_value valid
      (OSp.applyOps valid ops (OSp.Property.finalize p)) v).2 =
      .error .propertyGone ∧
    (OSp.Property.subscribe
      (OSp.applyOps valid ops (OSp.Property.finalize p)) c).2 =
      .error .propertyGone := by
  have hf : (OSp.applyOps valid ops (OSp.Property.finalize p)).finalized = true :=
    applyOps_finalized valid ops _ (by simp [OSp.Property.finalize])
  refine ⟨hf, ?_, ?_, ?_⟩ <;>
    simp [OSp.Property.get_value, OSp.Property.set_value, OSp.Property.subscribe, hf]

/-- C3 counterexample: a first shutdown of a freshly-constructed server
succeeds, but running the shutdown body a second time on the resulting state
panics (the `Except.error` case) at the unwrap of the already-taken
`shutdown_tx`, so the sequence does not survive being invoked twice. -/
theorem c3_counterexample :
    HttpServer.drop ⟨"Unencrypted HTTP", "127.0.0.1:80", some true, some .finished⟩ =
      .ok (⟨"Unencrypted HTTP", "127.0.0.1:80", none, none⟩,
        [⟨.trace, "Unencrypted HTTP server shut down"⟩]) ∧
    (HttpServer.drop ⟨"Unencrypted HTTP", "127.0.0.1:80", none, none⟩).isOk = false := by
  exact ⟨rfl, rfl⟩

/-- C3 (amended): the single shutdown invocation Rust's `Drop` performs on a
constructed Listener never panics — even when the signal receiver has
already been dropped, the failed send is logged as an error and the
sequence completes; only a hypothetical second invocation would panic on
the taken `shutdown_tx`. -/
theorem c3_first_shutdown_no_panic (name addr : String) (receiverAlive : Bool)
    (outcome : JoinOutcome) :
    HttpServer.drop ⟨name, addr, some receiverAlive, some outcome⟩ =
      .ok (⟨name, addr, none, none⟩,
        (if receiverAlive then []
         else [⟨.error, "failed to send " ++ name ++ " server shutdown request"⟩]) ++
        [joinLogEntry name outcome]) :=
  rfl

/-- C4 counterexample: with authority `example.com`, path `/a#b` and empty
query, the HTTPS URI is reconstructed successfully (the reply is a
redirect), yet its target is `https://example.com/a` — the fragment
truncation inside the path-and-query build loses part of the path, so the
redirect does not carry the same path. -/
theorem c4_counterexample :
    redirect_request_to_https (some "example.com") "/a#b" "" =
      ⟨301, some "https://example.com/a", none⟩ ∧
    "https://example.com/a" ≠
      "https://" ++ "example.com" ++ path_and_query_str "/a#b" "" := by
  exact ⟨by decide, by decide⟩

/-- C4 (amended): for every redirect-mode request whose authority resolves
and whose path and query consist of valid path-and-query bytes (in
particular, contain no `#`), the reply is a redirect to the HTTPS URI with
the same authority, path and query. -/
theorem c4_redirect_preserves_path_query (auth path query : String)
    (hp : path.toList.all pathCharOk = true)
    (hq : query.toList.all queryCharOk = true) :
    redirect_request_to_https (some auth) path query =
      ⟨301, some ("https://" ++ auth ++ path_and_query_str path query), none⟩ := by
  have hpq : pqScan false (path_and_query_str path query).toList =
      some (path_and_query_str path query).toList := by
    unfold path_and_query_str
    by_cases he : query.isEmpty = true
    · rw [if_pos he]
      exact pqScan_path_all hp
    · rw [if_neg he]
      have hlist : (path ++ "?" ++ query).toList =
          path.toList ++ '?' :: query.toList := by
        show (path ++ "?" ++ query).data = path.data ++ '?' :: query.data
        rw [String.data_append, String.data_append, List.append_assoc]
        rfl
      rw [hlist]
      exact pqScan_path_query _ _ hp hq
  have h2 := from_maybe_shared_eq_self _ hpq
  unfold redirect_request_to_https
  rw [h2]
  rfl

/-- Witness for the amended C4 at the spec's own instance: host
`example.com`, path `/a/b`, query `x=1` redirect to
`https://example.com/a/b?x=1`. -/
theorem c4_redirect_preserves_path_query_witness :
    ("/a/b".toList.all pathCharOk = true ∧ "x=1".toList.all queryCharOk = true) ∧
    redirect_request_to_https (some "example.com") "/a/b" "x=1" =
      ⟨301, some "https://example.com/a/b?x=1", none⟩ := by
  refine ⟨⟨by decide, by decide⟩, ?_⟩
  exact (c4_redirect_preserves_path_query "example.com" "/a/b" "x=1"
    (by decide) (by decide)).trans (by decide)

/-- C5: a redirect-mode request with no resolvable host authority gets the
404 NOT_FOUND reply, for every path and query; no redirect is produced. -/
theorem c5_no_authority_not_found (path query : String) :
    redirect_request_to_https none path query = ⟨404, none, none⟩ :=
  rfl

/-- C6 counterexample: with authority `example.com`, path `/a/b` and query
`x=1 2` (the space is an invalid URI byte), building the path-and-query
fails, and the reply is 404 NOT_FOUND — not the internal-error status the
claim requires for reconstruction failures. -/
theorem c6_counterexample :
    redirect_request_to_https (some "example.com") "/a/b" "x=1 2" =
      ⟨404, none, none⟩ ∧
    (404 : Nat) ≠ 500 := by
  exact ⟨by decide, by decide⟩

/-- C6 (amended): for every redirect-mode request with a resolvable host
authority whose path-and-query build fails, the reply is 404 NOT_FOUND;
the internal-error status is reserved for a failed full-URI build, which
cannot occur once the authority and path-and-query are parsed values. -/
theorem c6_pq_failure_not_found (auth path query : String)
    (h : PathAndQuery.from_maybe_shared (path_and_query_str path query) = none) :
    redirect_request_to_https (some auth) path query = ⟨404, none, none⟩ := by
  unfold redirect_request_to_https
  rw [h]

/-- Witness for the amended C6 at the space-in-query input. -/
theorem c6_pq_failure_not_found_witness :
    PathAndQuery.from_maybe_shared (path_and_query_str "/a/b" "x=1 2") = none ∧
    redirect_request_to_https (some "example.com") "/a/b" "x=1 2" =
      ⟨404, none, none⟩ :=
  ⟨by decide, c6_pq_failure_not_found "example.com" "/a/b" "x=1 2" (by decide)⟩

/-- C7: `new_encrypted` does not propagate bind/cert failures to the caller
as a typed error return — for every socket address, certificate path, key
path and bind error, the constructor panics inside warp's eager bind
instead of returning, and no bind outcome whatsoever makes it return a
typed `Err` (the source's TODO documents that the non-panicking try-bind is
wanted but unavailable for `TlsServer`). -/
theorem c7_new_encrypted_panics_on_bind_failure
    (socket_addr cert_path key_path e : String) (j : JoinOutcome) :
    HttpServer.new_encrypted socket_addr cert_path key_path (.error e) j =
      .panicked e ∧
    ∀ (r : Except String Unit) (err : String),
      HttpServer.new_encrypted socket_addr cert_path key_path r j ≠
        .returned (.error err) := by
  refine ⟨rfl, ?_⟩
  intro r err h
  cases r <;> simp [HttpServer.new_encrypted] at h

/-- C8: every call to the WebRTC `SessionBuilder::build` (for any receive
handler) and every call to `Session::send_packet` (for any payload) returns
the explicit not-implemented error and never succeeds. -/
theorem c8_webrtc_not_implemented :
    (∀ (α : Type) (b : WebrtcSessionBuilder) (handler : α),
      WebrtcSessionBuilder.build b handler =
        .error "WebrtcSessionBuilder::build() not implemented" ∧
      (WebrtcSessionBuilder.build b handler).isOk = false) ∧
    (∀ (s : WebrtcSession) (data : List Nat),
      WebrtcSession.send_packet s data =
        .error "WebrtcSession::send() not implemented" ∧
      (WebrtcSession.send_packet s data).isOk = false) :=
  ⟨fun _ _ _ => ⟨rfl, rfl⟩, fun _ _ => ⟨rfl, rfl⟩⟩

/-- C9: for every rejection, the redirect fallback response has the
internal-error status 500 and a body describing the failure (the fixed text
followed by the rejection). -/
theorem c9_fallback_internal_error (rejection : String) :
    (https_redirect_fallback_response rejection).status = 500 ∧
    (https_redirect_fallback_response rejection).body =
      some ("Please use HTTPS instead of HTTP, automatic redirection failed: "
        ++ rejection) :=
  ⟨rfl, rfl⟩

/-- C10: `max_packet_len` is a constant function — it returns
`webrtc_unreliable::MAX_MESSAGE_LEN` for every session and agrees across
all sessions — while `send_packet` never succeeds on any payload, so a
caller fragmenting to the advertised limit still cannot deliver. -/
theorem c10_max_packet_len_constant :
    (∀ s : WebrtcSession, WebrtcSession.max_packet_len s = MAX_MESSAGE_LEN) ∧
    (∀ s t : WebrtcSession,
      WebrtcSession.max_packet_len s = WebrtcSession.max_packet_len t) ∧
    (∀ (s : WebrtcSession) (data : List Nat),
      (WebrtcSession.send_packet s data).isOk = false) :=
  ⟨fun _ => rfl, fun _ _ => rfl, fun _ _ => rfl⟩
